import Mathlib

/-!
Shallow embedding of the emblem-scraper crawl engine.

Embedded modules and the Python source they follow:
* `CacheHandler` — `src/cache.py` (LMDB-backed dedup cache; the store is
  modelled as an association list over byte strings, `str` inputs are
  UTF-8 encoded by `to_bytes` exactly as `CacheHandler._to_bytes` does).
* `BaseClient` — `src/core/base_client.py` (`_request`: per-attempt the
  transport either raises `httpx.RequestError` or yields a response with
  a status code; `raise_for_status` raises `httpx.HTTPStatusError` for a
  non-2xx status, and the `except` clause catches only
  `httpx.RequestError`, so a status error propagates to the caller).
* `solve_captcha`, `two_cap`, `capsolver`, `fake_solve_captcha` —
  `src/core/helpers.py`.
* `make_request`, `search_doctors` — `src/core/process_listing.py`
  (the per-specialty pagination loop; external I/O is abstracted into
  per-attempt / per-page outcome oracles).
* `process_provider` — `src/core/process_detail.py`.
* `batches`, `process_all_batches` — `src/main.py` (the batch scheduler;
  `batches` models `inputs[i:i+B]` for `i in range(0, len(inputs), B)`).

Randomized quantities (jitter delays) are passed in as oracle functions;
theorems constrain them with the bounds the Python `random.uniform` call
guarantees.
-/

set_option maxHeartbeats 1000000

namespace EmblemScraper

/-! ## Dedup cache (`src/cache.py`) -/

/-- Raw byte strings, the key/value type of the LMDB store. -/
abbrev Bytes := List UInt8

/-- A Python value that is either a `str` or a `bytes` object, as accepted
by the `CacheHandler` API (`key: Union[str, bytes]`). -/
inductive Datum where
  | str (s : String)
  | bytes (b : Bytes)
deriving DecidableEq

/-- `CacheHandler._to_bytes`: `data.encode("utf-8") if isinstance(data, str)
else data`. -/
def to_bytes : Datum → Bytes
  | .str s => s.toUTF8.toList
  | .bytes b => b

/-- Lookup in the modelled LMDB store (`txn.get`). -/
def lookupStore : List (Bytes × Bytes) → Bytes → Option Bytes
  | [], _ => none
  | (k, v) :: rest, key => if k = key then some v else lookupStore rest key

/-- Insert/overwrite in the modelled LMDB store (`txn.put`, default
overwrite behaviour). -/
def putStore : List (Bytes × Bytes) → Bytes → Bytes → List (Bytes × Bytes)
  | [], k, v => [(k, v)]
  | (k0, v0) :: rest, k, v =>
      if k0 = k then (k, v) :: rest else (k0, v0) :: putStore rest k v

/-- `RuntimeError` raised by the cache layer (`_ensure_open`, and the
readonly guards of `set`/`delete`/`clear`). -/
inductive CacheError where
  | runtimeError (msg : String)
deriving DecidableEq

/-- The observable state of a `CacheHandler` instance: the key-value store
plus the `readonly` and `_closed` flags. -/
structure CacheHandler where
  store : List (Bytes × Bytes)
  readonly : Bool
  closed : Bool
deriving DecidableEq

namespace CacheHandler

/-- `CacheHandler._ensure_open`: raise `RuntimeError` if the environment is
closed. -/
def ensure_open (c : CacheHandler) : Except CacheError Unit :=
  if c.closed then .error (.runtimeError "Cache is closed. Create a new instance.")
  else .ok ()

/-- `CacheHandler.check_if_new`: `True` if the key is NOT found. -/
def check_if_new (c : CacheHandler) (key : Datum) : Except CacheError Bool := do
  c.ensure_open
  pure (lookupStore c.store (to_bytes key)).isNone

/-- `CacheHandler.exists`: `return not self.check_if_new(key)`. -/
def existsKey (c : CacheHandler) (key : Datum) : Except CacheError Bool := do
  let b ← c.check_if_new key
  pure (!b)

/-- `CacheHandler.get`: the stored value, or the supplied default when the
key is absent. -/
def get (c : CacheHandler) (key : Datum) (dflt : Option Bytes) :
    Except CacheError (Option Bytes) := do
  c.ensure_open
  match lookupStore c.store (to_bytes key) with
  | some v => pure (some v)
  | none => pure dflt

/-- `CacheHandler.set`: raises on a closed or read-only cache, otherwise
stores the pair and returns the `txn.put` result (`True`) together with
the updated store. -/
def set (c : CacheHandler) (key value : Datum) :
    Except CacheError (Bool × CacheHandler) := do
  c.ensure_open
  if c.readonly then
    throw (.runtimeError "Cannot write to a read-only cache")
  else
    pure (true, { c with store := putStore c.store (to_bytes key) (to_bytes value) })

end CacheHandler

/-! ## Request executor (`src/core/base_client.py`) -/

/-- The `retries` argument of `BaseClient.__init__`, which Python allows to
be a `bool` or an `int` (`retries: int | bool = 5`). -/
inductive RetriesArg where
  | bool (b : Bool)
  | int (n : Int)
deriving DecidableEq

/-- `self.retries = 5 if retries is True else (1 if retries is False else
retries)`. -/
def normalizeRetries : RetriesArg → Int
  | .bool true => 5
  | .bool false => 1
  | .int n => n

/-- One transport-level attempt, as seen by `_request`: either `httpx`
raises a `RequestError`, or a response with some HTTP status arrives. -/
inductive Transport where
  | err
  | resp (status : Nat)
deriving DecidableEq

/-- `httpx.Response.is_success`, the predicate behind `raise_for_status`:
a 2xx status. -/
def is2xx (s : Nat) : Bool := decide (200 ≤ s) && decide (s < 300)

/-- The ways a `_request` call can end: a 2xx response dict, the empty
dict `{}` after exhausting the loop, or an uncaught
`httpx.HTTPStatusError` from `raise_for_status` on a non-2xx status. -/
inductive ReqResult where
  | success (status : Nat)
  | emptyResult
  | raisedStatusError (status : Nat)
deriving DecidableEq

/-- What one `_request` call did: its outcome, how many transport attempts
it issued, and the backoff sleeps it performed (in order). -/
structure ReqTrace where
  result : ReqResult
  attempts : Nat
  sleeps : List ℚ
deriving DecidableEq

/-- The `for attempt in range(1, self.retries + 1)` loop of
`BaseClient._request`. A 2xx response returns immediately; a non-2xx
response raises out of the loop (`HTTPStatusError` is not caught by
`except httpx.RequestError`); a `RequestError` sleeps `backoff ** attempt`
and continues; falling off the loop returns `{}`. -/
def requestLoop (oracle : Nat → Transport) (backoff : ℚ) :
    Nat → Nat → ReqTrace
  | _, 0 => { result := .emptyResult, attempts := 0, sleeps := [] }
  | attempt, fuel + 1 =>
    match oracle attempt with
    | .resp s =>
        if is2xx s then { result := .success s, attempts := 1, sleeps := [] }
        else { result := .raisedStatusError s, attempts := 1, sleeps := [] }
    | .err =>
        let t := requestLoop oracle backoff (attempt + 1) fuel
        { result := t.result, attempts := t.attempts + 1,
          sleeps := backoff ^ attempt :: t.sleeps }

/-- `BaseClient._request` with a given (already stored) `retries`
constructor argument: run the attempt loop from attempt 1. -/
def BaseClient.request (retries : RetriesArg) (backoff : ℚ)
    (oracle : Nat → Transport) : ReqTrace :=
  requestLoop oracle backoff 1 (normalizeRetries retries).toNat

/-- `src/core/process_listing.py` line 15: the module-level client is
constructed with `retries=False`. -/
def listingClientRetries : RetriesArg := .bool false

/-- `src/core/process_detail.py` line 14: the module-level client is
constructed with `retries=False`. -/
def detailClientRetries : RetriesArg := .bool false

/-! ## Captcha strategies (`src/core/helpers.py`) -/

/-- A Python return value that is either `None` or a string (several
helpers fall off the end of the function, yielding `None`). -/
inductive PyValue where
  | none
  | str (s : String)
deriving DecidableEq

/-- The outcome of one call into a captcha-solving backend: the backend
either raises an exception or produces a token string. -/
inductive SolveOutcome where
  | raises
  | token (code : String)
deriving DecidableEq

/-- `two_cap`: the solver call sits in a `try` block; on an exception the
`except` branch only logs, the `else` branch returns `result['code']`.
With no `return` after the `except` branch, a failed call falls off the
end of the function and yields `None`. -/
def two_cap : SolveOutcome → PyValue
  | .raises => .none
  | .token c => .str c

/-- `capsolver`: the `capsolver.solve(...)` call has no `try` block at all,
so a backend exception propagates to the caller; on success the function
returns `solution['gRecaptchaResponse']`. -/
def capsolver_solve : SolveOutcome → Except Unit PyValue
  | .raises => .error ()
  | .token c => .ok (.str c)

/-- The `while attempt < 5` retry loop of `fake_solve_captcha`: each
browser-automation attempt either raises (caught, `attempt += 1`) or
returns the extracted token. -/
def fake_solve_loop (outcome : Nat → SolveOutcome) : Nat → Nat → PyValue
  | _, 0 => .none
  | attempt, fuel + 1 =>
    match outcome attempt with
    | .token c => .str c
    | .raises => fake_solve_loop outcome (attempt + 1) fuel

/-- `fake_solve_captcha`: up to 5 browser-automation attempts (attempt
counter starts at 0); after exhausting them it logs and `return None`. -/
def fake_solve_captcha (outcome : Nat → SolveOutcome) : PyValue :=
  fake_solve_loop outcome 0 5

/-- `solve_captcha(provider='capsolver')`: dispatch on the provider name;
an unsupported provider name is logged and yields the empty string. The
`remote` oracle stands for the one remote-service call a `capsolver` or
`2captcha` strategy performs, `browser` for the browser-automation
attempts. -/
def solve_captcha (provider : String) (remote : SolveOutcome)
    (browser : Nat → SolveOutcome) : Except Unit PyValue :=
  if provider = "capsolver" then capsolver_solve remote
  else if provider = "2captcha" then .ok (two_cap remote)
  else if provider = "browser" then .ok (fake_solve_captcha browser)
  else .ok (.str "")

/-! ## Listing page fetch (`make_request`, `src/core/process_listing.py`) -/

/-- The shape of a successful page response as `search_doctors` consumes
it: `response.get('totalRecords', 0)` and `response.get('providerList',
[])`. Providers are identified by their `ProviderId` string. -/
structure PageResponse where
  totalRecords : Nat
  providerList : List String
deriving DecidableEq

/-- The outcome of one attempt inside `make_request`'s `try` block: an
exception (transport raise, JSON parse error, ...), a parsed response
with an empty/absent `IPResult`, or a non-empty result. -/
inductive AttemptResult where
  | exc
  | noResults
  | results (r : PageResponse)

/-- What one `make_request` call did: its return value (`none` models the
empty failure marker `{}`), the number of request cycles performed, and
the pre-request jitter sleeps in order. -/
structure PageFetchTrace where
  result : Option PageResponse
  cycles : Nat
  preDelays : List ℚ
deriving DecidableEq

/-- The `for attempt in range(1, max_attempts + 1)` loop of `make_request`
with `max_attempts = 10`. Every attempt sleeps
`random.uniform(0.5, 1.5)` (the `jitter` oracle) before issuing the
request. A non-empty `IPResult` returns it; a parsed-but-empty response
just continues; an exception returns `{}` when `attempt >= max_attempts`
and otherwise sleeps `random.uniform(1, 2)` and continues. Falling off
the loop returns `{}`. -/
def make_request_loop (outcome : Nat → AttemptResult) (jitter : Nat → ℚ) :
    Nat → Nat → PageFetchTrace
  | _, 0 => { result := none, cycles := 0, preDelays := [] }
  | attempt, fuel + 1 =>
    match outcome attempt with
    | .results r => { result := some r, cycles := 1, preDelays := [jitter attempt] }
    | .noResults =>
        let t := make_request_loop outcome jitter (attempt + 1) fuel
        { result := t.result, cycles := t.cycles + 1,
          preDelays := jitter attempt :: t.preDelays }
    | .exc =>
        if 10 ≤ attempt then
          { result := none, cycles := 1, preDelays := [jitter attempt] }
        else
          let t := make_request_loop outcome jitter (attempt + 1) fuel
          { result := t.result, cycles := t.cycles + 1,
            preDelays := jitter attempt :: t.preDelays }

/-- `make_request`: the attempt loop started at attempt 1 with
`max_attempts = 10`. -/
def make_request (outcome : Nat → AttemptResult) (jitter : Nat → ℚ) :
    PageFetchTrace :=
  make_request_loop outcome jitter 1 10

/-! ## Listing crawler (`search_doctors`, `src/core/process_listing.py`) -/

/-- The outcome of fetching one page, as the `search_doctors` loop body
sees it: either a failure (`make_request` returned the empty marker, or
an exception was caught by the `except` around the body — both advance
`page` and `continue`), or a usable page response. -/
inductive FetchOutcome where
  | failed
  | page (r : PageResponse)

/-- What the per-specialty `while page <= total_pages` loop did: the page
numbers requested in order, the value of `total_pages` at the end of each
iteration, and the number of `process_provider` invocations. -/
structure ListingTrace where
  fetched : List Nat
  totals : List Nat
  detailCalls : Nat
deriving DecidableEq

/-- The `while page <= total_pages` loop of `search_doctors` for one
specialty, with `page_size = 50`. On page 1 of a successful fetch:
`totalRecords == 0` breaks out immediately; otherwise `total_pages` is
assigned `total_results // 50 + (1 if total_results % 50 > 0 else 0)`.
When `SEQUENTIAL_FLOW` is set, every entry of `providerList` is passed to
`process_provider`. Failures advance the page without dispatching. -/
def search_loop (fetch : Nat → FetchOutcome) (seqFlow : Bool) :
    Nat → Nat → Nat → ListingTrace
  | 0, _, _ => { fetched := [], totals := [], detailCalls := 0 }
  | fuel + 1, page, total_pages =>
    if page ≤ total_pages then
      match fetch page with
      | .failed =>
          let t := search_loop fetch seqFlow fuel (page + 1) total_pages
          { fetched := page :: t.fetched, totals := total_pages :: t.totals,
            detailCalls := t.detailCalls }
      | .page r =>
          if page = 1 then
            if r.totalRecords = 0 then
              { fetched := [1], totals := [total_pages], detailCalls := 0 }
            else
              let T := r.totalRecords / 50 +
                (if r.totalRecords % 50 > 0 then 1 else 0)
              let dc := if seqFlow then r.providerList.length else 0
              let t := search_loop fetch seqFlow fuel 2 T
              { fetched := 1 :: t.fetched, totals := T :: t.totals,
                detailCalls := dc + t.detailCalls }
          else
            let dc := if seqFlow then r.providerList.length else 0
            let t := search_loop fetch seqFlow fuel (page + 1) total_pages
            { fetched := page :: t.fetched, totals := total_pages :: t.totals,
              detailCalls := dc + t.detailCalls }
    else { fetched := [], totals := [], detailCalls := 0 }

/-- One partition (one specialty) of `search_doctors`: the loop starts at
`page = 1`, `total_pages = 1`. `fuel` bounds the number of loop
iterations; every theorem supplies enough of it. -/
def search_doctors_partition (fetch : Nat → FetchOutcome) (seqFlow : Bool)
    (fuel : Nat) : ListingTrace :=
  search_loop fetch seqFlow fuel 1 1

/-- The list `[a, a+1, ..., a+n-1]`: the page numbers a run fetches. -/
def pageRange : Nat → Nat → List Nat
  | _, 0 => []
  | a, n + 1 => a :: pageRange (a + 1) n

/-! ## Detail fetcher (`process_provider`, `src/core/process_detail.py`) -/

/-- The outcome of one attempt inside `process_provider`'s `try` block. -/
inductive DetailOutcome where
  | exc
  | noResults
  | results

/-- The `for attempt in range(1, 11)` loop of `process_provider`. A
non-empty `IPResult` persists the payload and returns `True`; both an
exception and an empty result fall through to the next attempt (the
`attempt >= 10` branch only logs); falling off the loop returns `False`.
Returns (success flag, number of `client._request` calls issued). -/
def detail_attempts (outcome : Nat → DetailOutcome) : Nat → Nat → Bool × Nat
  | _, 0 => (false, 0)
  | attempt, fuel + 1 =>
    match outcome attempt with
    | .results => (true, 1)
    | .exc =>
        let t := detail_attempts outcome (attempt + 1) fuel
        (t.1, t.2 + 1)
    | .noResults =>
        let t := detail_attempts outcome (attempt + 1) fuel
        (t.1, t.2 + 1)

/-- What one `process_provider` call did: its return value, the number of
network calls issued, whether the raw payload was persisted, and the
dedup cache afterwards. -/
structure DetailResult where
  ok : Bool
  netCalls : Nat
  persisted : Bool
  cacheAfter : CacheHandler
deriving DecidableEq

/-- `process_provider`: short-circuits to `True` when `cache.exists
(provider_id)` holds (before any request is built or sent); otherwise
runs the 10-attempt detail loop, persisting the payload exactly on the
successful attempt. No code path writes the cache: the final cache state
is the initial one in every branch. -/
def process_provider (cache : CacheHandler) (pid : String)
    (outcome : Nat → DetailOutcome) : Except CacheError DetailResult := do
  let hit ← cache.existsKey (.str pid)
  if hit then
    pure { ok := true, netCalls := 0, persisted := false, cacheAfter := cache }
  else
    let t := detail_attempts outcome 1 10
    pure { ok := t.1, netCalls := t.2, persisted := t.1, cacheAfter := cache }

/-! ## Batch scheduler (`src/main.py`) -/

/-- The batch split of `process_all_batches`: `inputs[i:i+B]` for `i in
range(0, len(inputs), B)`. For `B > 0` that range has
`(len + B - 1) / B` elements `0, B, 2B, ...`. -/
def batches (l : List α) (B : Nat) : List (List α) :=
  (List.range ((l.length + B - 1) / B)).map (fun i => ((l.drop (i * B)).take B))

/-- An event in the scheduler's trace: a batch starting, an input item
being handed to `main`, a batch completing. -/
inductive BatchEvent (α : Type) where
  | batchStart (i : Nat)
  | item (x : α)
  | batchEnd (i : Nat)
deriving DecidableEq

/-- `process_batch` for the batch with index `i`: the batch starts, its
items are dispatched, and the surrounding `await` returns only when the
whole `asyncio.gather` is done. -/
def process_batch (i : Nat) (batch : List α) : List (BatchEvent α) :=
  BatchEvent.batchStart i :: batch.map BatchEvent.item ++ [BatchEvent.batchEnd i]

/-- `process_all_batches`: the `for` loop awaits `process_batch(batch)`
for each batch in order, so the trace is the concatenation of the
per-batch traces. -/
def process_all_batches (l : List α) (B : Nat) : List (BatchEvent α) :=
  (((batches l B).enum).map (fun p => process_batch p.1 p.2)).flatten

/-- Batch start/completion markers (everything except item events). -/
def isMarker : BatchEvent α → Bool
  | .item _ => false
  | .batchStart _ => true
  | .batchEnd _ => true

/-- The strictly sequential marker trace for `k` batches starting at
index `s`: start 0, end 0, start 1, end 1, ... — batch `i+1` starts only
after batch `i` has completed. -/
def seqMarkersFrom (α : Type) : Nat → Nat → List (BatchEvent α)
  | _, 0 => []
  | s, k + 1 =>
      BatchEvent.batchStart s :: BatchEvent.batchEnd s :: seqMarkersFrom α (s + 1) k

/-! ## Theorems -/

theorem lookupStore_putStore_self (st : List (Bytes × Bytes)) (k v : Bytes) :
    lookupStore (putStore st k v) k = some v := by
  induction st with
  | nil => simp [putStore, lookupStore]
  | cons hd tl ih =>
      obtain ⟨k0, v0⟩ := hd
      by_cases h : k0 = k
      · simp [putStore, h, lookupStore]
      · simp [putStore, h, lookupStore, ih]

/-- C10: on an open, writable cache, `set k v` returns `True`; afterwards
`exists k` holds and `get k` returns the stored value; a `str` key and
its UTF-8 byte encoding are interchangeable; and `exists` is always the
negation of `check_if_new`. -/
theorem cache_set_get_exists (c : CacheHandler) (k v : Datum)
    (hopen : c.closed = false) (hrw : c.readonly = false) :
    ∃ c2 : CacheHandler,
      c.set k v = .ok (true, c2)
      ∧ c2.existsKey k = .ok true
      ∧ c2.existsKey (.bytes (to_bytes k)) = .ok true
      ∧ c2.get k Option.none = .ok (some (to_bytes v))
      ∧ (∀ s : String, to_bytes (.str s) = to_bytes (.bytes s.toUTF8.toList))
      ∧ (∀ (d : CacheHandler) (k2 : Datum) (b : Bool),
          d.check_if_new k2 = .ok b → d.existsKey k2 = .ok (!b)) := by
  refine ⟨{ c with store := putStore c.store (to_bytes k) (to_bytes v) },
    ?_, ?_, ?_, ?_, fun s => rfl, ?_⟩
  · simp [CacheHandler.set, CacheHandler.ensure_open, hopen, hrw]
  · simp [CacheHandler.existsKey, CacheHandler.check_if_new, CacheHandler.ensure_open,
      hopen, lookupStore_putStore_self]
  · simp [CacheHandler.existsKey, CacheHandler.check_if_new, CacheHandler.ensure_open,
      hopen, to_bytes, lookupStore_putStore_self]
  · simp [CacheHandler.get, CacheHandler.ensure_open, hopen, lookupStore_putStore_self]
  · intro d k2 b h
    simp [CacheHandler.existsKey, h]

-- Witness for C10 at a concrete empty cache and string key/value.
theorem cache_set_get_exists_witness :
    (⟨[], false, false⟩ : CacheHandler).closed = false
    ∧ ∃ c2 : CacheHandler,
      CacheHandler.set ⟨[], false, false⟩ (.str "k") (.str "v") = .ok (true, c2)
      ∧ c2.existsKey (.str "k") = .ok true
      ∧ c2.existsKey (.bytes (to_bytes (.str "k"))) = .ok true
      ∧ c2.get (.str "k") Option.none = .ok (some (to_bytes (.str "v")))
      ∧ (∀ s : String, to_bytes (.str s) = to_bytes (.bytes s.toUTF8.toList))
      ∧ (∀ (d : CacheHandler) (k2 : Datum) (b : Bool),
          d.check_if_new k2 = .ok b → d.existsKey k2 = .ok (!b)) :=
  ⟨rfl, cache_set_get_exists ⟨[], false, false⟩ (.str "k") (.str "v") rfl rfl⟩

/-- C5 counterexample: a failed `2captcha` strategy call returns `None`,
which is not the empty string, and a failed `capsolver` strategy call
raises to the caller instead of returning anything. -/
theorem captcha_failed_strategy_cex :
    solve_captcha "2captcha" SolveOutcome.raises (fun _ => SolveOutcome.raises)
        = Except.ok PyValue.none
    ∧ PyValue.none ≠ PyValue.str ""
    ∧ solve_captcha "capsolver" SolveOutcome.raises (fun _ => SolveOutcome.raises)
        = Except.error () := by
  refine ⟨rfl, by decide, rfl⟩

/-- C5 (amended): a failed `2captcha` or browser-automation strategy call
returns `None` (a falsy value, but not the empty string) without raising;
a failed `capsolver` strategy call propagates the exception to the
caller; only an unsupported provider name makes `solve_captcha` return
the empty string. -/
theorem captcha_failed_strategy_amended (browser : Nat → SolveOutcome)
    (hb : ∀ a, browser a = SolveOutcome.raises) :
    two_cap .raises = PyValue.none
    ∧ capsolver_solve .raises = Except.error ()
    ∧ fake_solve_captcha browser = PyValue.none
    ∧ solve_captcha "2captcha" .raises browser = .ok PyValue.none
    ∧ solve_captcha "browser" .raises browser = .ok PyValue.none
    ∧ ∀ p : String, p ≠ "capsolver" → p ≠ "2captcha" → p ≠ "browser" →
        solve_captcha p .raises browser = .ok (PyValue.str "") := by
  have hfake : fake_solve_captcha browser = PyValue.none := by
    simp [fake_solve_captcha, fake_solve_loop, hb]
  refine ⟨rfl, rfl, hfake, rfl, ?_, ?_⟩
  · simp [solve_captcha, hfake]
  · intro p h1 h2 h3
    simp [solve_captcha, h1, h2, h3]

-- Witness for C5's amended theorem with an always-failing browser oracle.
theorem captcha_failed_strategy_amended_witness :
    (∀ a : Nat, (fun _ : Nat => SolveOutcome.raises) a = SolveOutcome.raises)
    ∧ (two_cap .raises = PyValue.none
      ∧ capsolver_solve .raises = Except.error ()
      ∧ fake_solve_captcha (fun _ : Nat => SolveOutcome.raises) = PyValue.none
      ∧ solve_captcha "2captcha" .raises (fun _ : Nat => SolveOutcome.raises)
          = .ok PyValue.none
      ∧ solve_captcha "browser" .raises (fun _ : Nat => SolveOutcome.raises)
          = .ok PyValue.none
      ∧ ∀ p : String, p ≠ "capsolver" → p ≠ "2captcha" → p ≠ "browser" →
          solve_captcha p .raises (fun _ : Nat => SolveOutcome.raises)
            = .ok (PyValue.str "")) :=
  ⟨fun _ => rfl, captcha_failed_strategy_amended (fun _ => .raises) (fun _ => rfl)⟩

/-- C3 counterexample: with the default configuration (`retries=True`,
i.e. 5 attempts), a server that always answers 500 makes `_request`
raise `HTTPStatusError` after a single attempt — the non-2xx status is
neither retried nor converted into the empty result. -/
theorem non2xx_raises_cex :
    (BaseClient.request (RetriesArg.bool true) (5/2 : ℚ)
        (fun _ => Transport.resp 500)).result = ReqResult.raisedStatusError 500
    ∧ (BaseClient.request (RetriesArg.bool true) (5/2 : ℚ)
        (fun _ => Transport.resp 500)).attempts = 1
    ∧ ReqResult.raisedStatusError 500 ≠ ReqResult.emptyResult := by
  refine ⟨rfl, rfl, by decide⟩

theorem requestLoop_all_err (oracle : Nat → Transport) (backoff : ℚ)
    (h : ∀ i, oracle i = Transport.err) :
    ∀ fuel attempt,
      (requestLoop oracle backoff attempt fuel).result = ReqResult.emptyResult
      ∧ (requestLoop oracle backoff attempt fuel).attempts = fuel := by
  intro fuel
  induction fuel with
  | zero => exact fun attempt => ⟨rfl, rfl⟩
  | succ f ih =>
      intro attempt
      simp [requestLoop, h attempt, (ih (attempt + 1)).1, (ih (attempt + 1)).2]

/-- C3 (amended): a non-2xx HTTP status makes `_request` raise
`HTTPStatusError` on that attempt, with no retry, no backoff sleep and no
empty result (`raise_for_status` raises an error that the
`except httpx.RequestError` clause does not catch); only transport-level
errors are retried, and only they produce the empty result after the
configured number of attempts is exhausted. -/
theorem non2xx_raises_transport_retried (backoff : ℚ) :
    (∀ (oracle : Nat → Transport) (r : RetriesArg) (s : Nat),
        1 ≤ (normalizeRetries r).toNat → oracle 1 = Transport.resp s →
        is2xx s = false →
        BaseClient.request r backoff oracle =
          { result := .raisedStatusError s, attempts := 1, sleeps := [] })
    ∧ (∀ (oracle : Nat → Transport) (r : RetriesArg),
        (∀ i, oracle i = Transport.err) →
        (BaseClient.request r backoff oracle).result = ReqResult.emptyResult
        ∧ (BaseClient.request r backoff oracle).attempts
            = (normalizeRetries r).toNat) := by
  constructor
  · intro oracle r s hn h1 h2
    unfold BaseClient.request
    obtain ⟨m, hm⟩ : ∃ m, (normalizeRetries r).toNat = m + 1 :=
      ⟨((normalizeRetries r).toNat).pred, (Nat.succ_pred_eq_of_pos hn).symm⟩
    rw [hm]
    simp [requestLoop, h1, h2]
  · intro oracle r h
    exact requestLoop_all_err oracle backoff h (normalizeRetries r).toNat 1

-- Witness for C3's amended theorem: a 500 answer on attempt 1 with the
-- default retries, and an always-failing transport with retries=False.
theorem non2xx_raises_transport_retried_witness :
    (1 ≤ (normalizeRetries (RetriesArg.bool true)).toNat
      ∧ (fun _ : Nat => Transport.resp 500) 1 = Transport.resp 500
      ∧ is2xx 500 = false
      ∧ (∀ i : Nat, (fun _ : Nat => Transport.err) i = Transport.err))
    ∧ BaseClient.request (RetriesArg.bool true) (5/2 : ℚ)
        (fun _ : Nat => Transport.resp 500) =
        { result := .raisedStatusError 500, attempts := 1, sleeps := [] }
    ∧ (BaseClient.request (RetriesArg.bool true) (5/2 : ℚ)
        (fun _ : Nat => Transport.err)).result = ReqResult.emptyResult :=
  ⟨⟨by decide, rfl, by decide, fun _ => rfl⟩,
    (non2xx_raises_transport_retried (5/2 : ℚ)).1 (fun _ => Transport.resp 500)
      (RetriesArg.bool true) 500 (by decide) rfl (by decide),
    ((non2xx_raises_transport_retried (5/2 : ℚ)).2 (fun _ => Transport.err)
      (RetriesArg.bool true) (fun _ => rfl)).1⟩

/-- C9: `BaseClient.__init__` normalizes `retries=True` to 5,
`retries=False` to 1 and keeps any integer as-is; since both the listing
and the detail module construct their client with `retries=False`, every
`_request` call of those modules performs exactly one transport attempt,
whatever the transport does. -/
theorem retries_normalization_single_attempt :
    normalizeRetries (RetriesArg.bool true) = 5
    ∧ normalizeRetries (RetriesArg.bool false) = 1
    ∧ (∀ n : Int, normalizeRetries (RetriesArg.int n) = n)
    ∧ (∀ (backoff : ℚ) (oracle : Nat → Transport),
        (BaseClient.request listingClientRetries backoff oracle).attempts = 1
        ∧ (BaseClient.request detailClientRetries backoff oracle).attempts = 1) := by
  refine ⟨rfl, rfl, fun n => rfl, ?_⟩
  intro backoff oracle
  constructor <;>
  · show (requestLoop oracle backoff 1 1).attempts = 1
    cases h : oracle 1 with
    | err => simp [requestLoop, h]
    | resp s => by_cases h2 : is2xx s <;> simp [requestLoop, h, h2]

/-- C2: when the provider id is absent from the dedup cache and
`process_provider` succeeds (persisting the raw payload and returning
`True`), the cache is left unchanged — the id is still absent afterwards,
because no code path in `process_provider` writes the cache. -/
theorem process_provider_success_leaves_cache_unchanged (cache : CacheHandler)
    (pid : String) (outcome : Nat → DetailOutcome) (res : DetailResult)
    (habsent : cache.existsKey (.str pid) = .ok false)
    (hrun : process_provider cache pid outcome = .ok res)
    (hok : res.ok = true) :
    res.cacheAfter = cache ∧ res.cacheAfter.existsKey (.str pid) = .ok false := by
  have key : process_provider cache pid outcome =
      .ok { ok := (detail_attempts outcome 1 10).1,
            netCalls := (detail_attempts outcome 1 10).2,
            persisted := (detail_attempts outcome 1 10).1, cacheAfter := cache } := by
    unfold process_provider
    rw [habsent]
    rfl
  rw [key] at hrun
  have hres := Except.ok.inj hrun
  subst hres
  exact ⟨rfl, habsent⟩

-- Witness for C2: empty cache, first attempt succeeds.
theorem process_provider_success_leaves_cache_unchanged_witness :
    (CacheHandler.existsKey ⟨[], false, false⟩ (.str "p") = .ok false
      ∧ process_provider ⟨[], false, false⟩ "p" (fun _ => DetailOutcome.results)
          = .ok { ok := true, netCalls := 1, persisted := true,
                  cacheAfter := ⟨[], false, false⟩ }
      ∧ ({ ok := true, netCalls := 1, persisted := true,
           cacheAfter := ⟨[], false, false⟩ } : DetailResult).ok = true)
    ∧ ({ ok := true, netCalls := 1, persisted := true,
         cacheAfter := ⟨[], false, false⟩ } : DetailResult).cacheAfter
        = ⟨[], false, false⟩
    ∧ ({ ok := true, netCalls := 1, persisted := true,
         cacheAfter := ⟨[], false, false⟩ } : DetailResult).cacheAfter.existsKey
          (.str "p") = .ok false :=
  ⟨⟨rfl, rfl, rfl⟩,
    process_provider_success_leaves_cache_unchanged ⟨[], false, false⟩ "p"
      (fun _ => DetailOutcome.results) _ rfl rfl rfl⟩

/-- C4: when the provider id is already present in the dedup cache,
`process_provider` returns `True` immediately with zero network calls
(and, in particular, nothing persisted and the cache untouched). -/
theorem process_provider_cached_short_circuit (cache : CacheHandler)
    (pid : String) (outcome : Nat → DetailOutcome)
    (hhit : cache.existsKey (.str pid) = .ok true) :
    process_provider cache pid outcome =
      .ok { ok := true, netCalls := 0, persisted := false, cacheAfter := cache } := by
  unfold process_provider
  rw [hhit]
  rfl

-- Witness for C4: a one-entry cache holding the queried provider id.
theorem process_provider_cached_short_circuit_witness :
    CacheHandler.existsKey ⟨[(to_bytes (.str "p"), [])], false, false⟩ (.str "p")
        = .ok true
    ∧ process_provider ⟨[(to_bytes (.str "p"), [])], false, false⟩ "p"
        (fun _ => DetailOutcome.exc)
      = .ok { ok := true, netCalls := 0, persisted := false,
              cacheAfter := ⟨[(to_bytes (.str "p"), [])], false, false⟩ } :=
  have hhit : CacheHandler.existsKey ⟨[(to_bytes (.str "p"), [])], false, false⟩
      (.str "p") = .ok true := by
    simp [CacheHandler.existsKey, CacheHandler.check_if_new, CacheHandler.ensure_open,
      lookupStore]
  ⟨hhit, process_provider_cached_short_circuit
    ⟨[(to_bytes (.str "p"), [])], false, false⟩ "p" (fun _ => DetailOutcome.exc) hhit⟩

theorem pageRange_length (n : Nat) : ∀ a, (pageRange a n).length = n := by
  induction n with
  | zero => intro a; rfl
  | succ m ih => intro a; simp [pageRange, ih (a + 1)]

theorem make_request_loop_all_fail (outcome : Nat → AttemptResult) (jitter : Nat → ℚ)
    (hfail : ∀ a r, outcome a ≠ AttemptResult.results r) :
    ∀ fuel attempt, attempt + fuel = 11 →
      (make_request_loop outcome jitter attempt fuel).result = none
      ∧ (make_request_loop outcome jitter attempt fuel).cycles = fuel
      ∧ (make_request_loop outcome jitter attempt fuel).preDelays
          = (pageRange attempt fuel).map jitter := by
  intro fuel
  induction fuel with
  | zero => intro attempt _; exact ⟨rfl, rfl, rfl⟩
  | succ f ih =>
      intro attempt hsum
      cases hout : outcome attempt with
      | results r => exact absurd hout (hfail attempt r)
      | noResults =>
          have hrec := ih (attempt + 1) (by omega)
          simp [make_request_loop, hout, hrec.1, hrec.2.1, hrec.2.2, pageRange]
      | exc =>
          by_cases h10 : 10 ≤ attempt
          · have hf : f = 0 := by omega
            subst hf
            simp [make_request_loop, hout, h10, pageRange]
          · have hrec := ih (attempt + 1) (by omega)
            simp [make_request_loop, hout, h10, hrec.1, hrec.2.1, hrec.2.2, pageRange]

/-- C7: a `make_request` call in which every attempt fails — by an
exception inside the request/parse block or by a parsed-but-empty
result — performs exactly 10 request cycles, then returns the empty
failure marker; and every attempt is preceded by a randomized jitter
sleep of at least 0.5 seconds (`random.uniform(0.5, 1.5)`). -/
theorem make_request_retry_bound (outcome : Nat → AttemptResult) (jitter : Nat → ℚ)
    (hfail : ∀ a r, outcome a ≠ AttemptResult.results r)
    (hjit : ∀ a, (1 : ℚ)/2 ≤ jitter a) :
    (make_request outcome jitter).result = none
    ∧ (make_request outcome jitter).cycles = 10
    ∧ (make_request outcome jitter).preDelays.length = 10
    ∧ ∀ d ∈ (make_request outcome jitter).preDelays, (1 : ℚ)/2 ≤ d := by
  have e : make_request outcome jitter = make_request_loop outcome jitter 1 10 := rfl
  have h := make_request_loop_all_fail outcome jitter hfail 10 1 (by omega)
  rw [e]
  refine ⟨h.1, h.2.1, ?_, ?_⟩
  · rw [h.2.2, List.length_map, pageRange_length]
  · intro d hd
    rw [h.2.2] at hd
    obtain ⟨a, _, rfl⟩ := List.mem_map.mp hd
    exact hjit a

-- Witness for C7: every attempt raises, jitter is the constant 1.
theorem make_request_retry_bound_witness :
    ((∀ a : Nat, ∀ r : PageResponse,
        (fun _ : Nat => AttemptResult.exc) a ≠ AttemptResult.results r)
      ∧ (∀ a : Nat, (1 : ℚ)/2 ≤ (fun _ : Nat => (1 : ℚ)) a))
    ∧ (make_request (fun _ => AttemptResult.exc) (fun _ => (1 : ℚ))).result = none
    ∧ (make_request (fun _ => AttemptResult.exc) (fun _ => (1 : ℚ))).cycles = 10 :=
  ⟨⟨fun _ r h => AttemptResult.noConfusion h, fun _ => by norm_num⟩,
    (make_request_retry_bound _ _ (fun _ r h => AttemptResult.noConfusion h)
      (fun _ => by norm_num)).1,
    (make_request_retry_bound _ _ (fun _ r h => AttemptResult.noConfusion h)
      (fun _ => by norm_num)).2.1⟩

/-- C6: a partition whose page-1 response reports `totalRecords == 0`
issues exactly one page request (page 1 only) and invokes the detail
fetcher zero times. -/
theorem search_zero_records_one_page (fetch : Nat → FetchOutcome) (seqFlow : Bool)
    (r : PageResponse) (fuel : Nat)
    (h1 : fetch 1 = FetchOutcome.page r) (h0 : r.totalRecords = 0)
    (hf : 1 ≤ fuel) :
    (search_doctors_partition fetch seqFlow fuel).fetched = [1]
    ∧ (search_doctors_partition fetch seqFlow fuel).detailCalls = 0 := by
  obtain ⟨f, rfl⟩ : ∃ f, fuel = f + 1 := ⟨fuel - 1, by omega⟩
  simp [search_doctors_partition, search_loop, h1, h0]

-- Witness for C6: page 1 returns zero records.
theorem search_zero_records_one_page_witness :
    ((fun _ : Nat => FetchOutcome.page ⟨0, []⟩) 1 = FetchOutcome.page ⟨0, []⟩
      ∧ (⟨0, []⟩ : PageResponse).totalRecords = 0 ∧ 1 ≤ 5)
    ∧ (search_doctors_partition (fun _ => FetchOutcome.page ⟨0, []⟩) true 5).fetched = [1]
    ∧ (search_doctors_partition (fun _ => FetchOutcome.page ⟨0, []⟩) true 5).detailCalls = 0 :=
  ⟨⟨rfl, rfl, by omega⟩,
    (search_zero_records_one_page (fun _ => FetchOutcome.page ⟨0, []⟩) true ⟨0, []⟩ 5
      rfl rfl (by omega)).1,
    (search_zero_records_one_page (fun _ => FetchOutcome.page ⟨0, []⟩) true ⟨0, []⟩ 5
      rfl rfl (by omega)).2⟩

theorem totalPages_eq_ceil (R : Nat) :
    R / 50 + (if R % 50 > 0 then 1 else 0) = (R + 49) / 50 := by
  rcases Nat.eq_zero_or_pos (R % 50) with h | h
  · simp only [h, gt_iff_lt, Nat.lt_irrefl, if_false]
    omega
  · rw [if_pos h]
    omega

theorem search_loop_tail (fetch : Nat → FetchOutcome) (seqFlow : Bool) (T : Nat) :
    ∀ fuel page, 2 ≤ page → T + 1 ≤ page + fuel →
      (search_loop fetch seqFlow fuel page T).fetched = pageRange page (T + 1 - page)
      ∧ (search_loop fetch seqFlow fuel page T).totals
          = List.replicate (T + 1 - page) T := by
  intro fuel
  induction fuel with
  | zero =>
      intro page _ hfe
      have h0 : T + 1 - page = 0 := by omega
      simp [search_loop, h0, pageRange]
  | succ f ih =>
      intro page h2 hfe
      by_cases hle : page ≤ T
      · have hrange : T + 1 - page = (T + 1 - (page + 1)) + 1 := by omega
        have hne : page ≠ 1 := by omega
        have hrec := ih (page + 1) (by omega) (by omega)
        cases hout : fetch page with
        | failed =>
            simp [search_loop, hle, hout, hrec.1, hrec.2, hrange, pageRange,
              List.replicate_succ]
        | page r =>
            simp [search_loop, hle, hout, hne, hrec.1, hrec.2, hrange, pageRange,
              List.replicate_succ]
      · have h0 : T + 1 - page = 0 := by omega
        simp [search_loop, hle, h0, pageRange]

theorem search_loop_first_page (fetch : Nat → FetchOutcome) (seqFlow : Bool)
    (f : Nat) (r : PageResponse)
    (h1 : fetch 1 = FetchOutcome.page r) (hne : r.totalRecords ≠ 0) :
    search_loop fetch seqFlow (f + 1) 1 1 =
      { fetched := 1 :: (search_loop fetch seqFlow f 2
          (r.totalRecords / 50 + (if r.totalRecords % 50 > 0 then 1 else 0))).fetched,
        totals := (r.totalRecords / 50 + (if r.totalRecords % 50 > 0 then 1 else 0))
          :: (search_loop fetch seqFlow f 2
            (r.totalRecords / 50 + (if r.totalRecords % 50 > 0 then 1 else 0))).totals,
        detailCalls := (if seqFlow then r.providerList.length else 0)
          + (search_loop fetch seqFlow f 2
            (r.totalRecords / 50 + (if r.totalRecords % 50 > 0 then 1 else 0))).detailCalls } := by
  simp [search_loop, h1, hne]

/-- C1: when the page-1 response reports `totalRecords = R` with `R > 0`
(the crawler's page size being the fixed 50), the partition fetches
exactly the pages `1, ..., ceil(R/50)` — `ceil(R/50)` pages in all — and
the `total_pages` value computed on page 1 equals `ceil(R/50)` at the end
of every iteration: it is never recomputed or changed on a later page. -/
theorem search_fetches_ceil_pages (fetch : Nat → FetchOutcome) (seqFlow : Bool)
    (r : PageResponse) (R fuel : Nat)
    (h1 : fetch 1 = FetchOutcome.page r) (hR : r.totalRecords = R) (hpos : 0 < R)
    (hfuel : (R + 49) / 50 + 1 ≤ fuel) :
    (search_doctors_partition fetch seqFlow fuel).fetched
        = pageRange 1 ((R + 49) / 50)
    ∧ (search_doctors_partition fetch seqFlow fuel).fetched.length = (R + 49) / 50
    ∧ (search_doctors_partition fetch seqFlow fuel).totals
        = List.replicate ((R + 49) / 50) ((R + 49) / 50) := by
  subst hR
  obtain ⟨f, rfl⟩ : ∃ f, fuel = f + 1 := ⟨fuel - 1, by omega⟩
  have hne : r.totalRecords ≠ 0 := by omega
  have hfirst := search_loop_first_page fetch seqFlow f r h1 hne
  rw [totalPages_eq_ceil] at hfirst
  have hTpos : 1 ≤ (r.totalRecords + 49) / 50 := by omega
  have htail := search_loop_tail fetch seqFlow ((r.totalRecords + 49) / 50) f 2
    (by omega) (by omega)
  obtain ⟨T0, hT0⟩ : ∃ T0, (r.totalRecords + 49) / 50 = T0 + 1 :=
    ⟨(r.totalRecords + 49) / 50 - 1, by omega⟩
  have hsub : (r.totalRecords + 49) / 50 + 1 - 2 = T0 := by omega
  refine ⟨?_, ?_, ?_⟩
  · show (search_loop fetch seqFlow (f + 1) 1 1).fetched = _
    rw [hfirst]
    simp only []
    rw [htail.1, hsub, hT0]
    simp [pageRange]
  · show (search_loop fetch seqFlow (f + 1) 1 1).fetched.length = _
    rw [hfirst]
    simp only [List.length_cons]
    rw [htail.1, hsub, pageRange_length]
    omega
  · show (search_loop fetch seqFlow (f + 1) 1 1).totals = _
    rw [hfirst]
    simp only []
    rw [htail.2, hsub, hT0]
    simp [List.replicate_succ]

-- Witness for C1: page 1 reports 120 records, later pages fail; the run
-- fetches pages 1, 2, 3.
theorem search_fetches_ceil_pages_witness :
    ((fun p : Nat => if p = 1 then FetchOutcome.page ⟨120, []⟩ else FetchOutcome.failed) 1
        = FetchOutcome.page ⟨120, []⟩
      ∧ (⟨120, []⟩ : PageResponse).totalRecords = 120
      ∧ 0 < 120 ∧ (120 + 49) / 50 + 1 ≤ 10)
    ∧ (search_doctors_partition
        (fun p => if p = 1 then FetchOutcome.page ⟨120, []⟩ else FetchOutcome.failed)
        true 10).fetched = pageRange 1 ((120 + 49) / 50)
    ∧ (search_doctors_partition
        (fun p => if p = 1 then FetchOutcome.page ⟨120, []⟩ else FetchOutcome.failed)
        true 10).fetched.length = (120 + 49) / 50
    ∧ (search_doctors_partition
        (fun p => if p = 1 then FetchOutcome.page ⟨120, []⟩ else FetchOutcome.failed)
        true 10).totals = List.replicate ((120 + 49) / 50) ((120 + 49) / 50) :=
  ⟨⟨rfl, rfl, by omega, by omega⟩,
    search_fetches_ceil_pages _ true ⟨120, []⟩ 120 10 rfl rfl (by omega) (by omega)⟩

theorem batches_length (l : List α) (B : Nat) :
    (batches l B).length = (l.length + B - 1) / B := by
  simp [batches]

theorem batches_nil (B : Nat) : batches ([] : List α) B = [] := by
  rcases Nat.eq_zero_or_pos B with h | h
  · subst h; simp [batches]
  · simp [batches, Nat.div_eq_of_lt (show B - 1 < B by omega)]

theorem batches_cons (l : List α) (B : Nat) (hB : 0 < B) (hl : l ≠ []) :
    batches l B = l.take B :: batches (l.drop B) B := by
  have hN : 1 ≤ l.length := List.length_pos.mpr hl
  have hk : (l.length + B - 1) / B = (l.length - 1) / B + 1 := by
    have e : l.length + B - 1 = (l.length - 1) + B := by omega
    rw [e, Nat.add_div_right _ hB]
  have hk2 : ((l.drop B).length + B - 1) / B = (l.length - 1) / B := by
    rw [List.length_drop]
    rcases Nat.lt_or_ge l.length (B + 1) with hsm | hlg
    · have e1 : l.length - B = 0 := by omega
      rw [e1, Nat.div_eq_of_lt (by omega), Nat.div_eq_of_lt (by omega)]
    · have e1 : l.length - B + B - 1 = (l.length - B - 1) + B := by omega
      have e2 : l.length - 1 = (l.length - B - 1) + B := by omega
      rw [e1, Nat.add_div_right _ hB, e2, Nat.add_div_right _ hB]
  unfold batches
  rw [hk, hk2, List.range_succ_eq_map, List.map_cons, List.map_map]
  have hfun : ((fun i => (l.drop (i * B)).take B) ∘ Nat.succ)
      = (fun i => ((l.drop B).drop (i * B)).take B) := by
    funext i
    simp [Function.comp, List.drop_drop, Nat.succ_mul, Nat.add_comm]
  rw [hfun]
  simp

theorem batches_flatten_aux (B : Nat) (hB : 0 < B) :
    ∀ n (l : List α), l.length ≤ n → (batches l B).flatten = l := by
  intro n
  induction n with
  | zero =>
      intro l hl
      have h0 : l = [] := List.eq_nil_of_length_eq_zero (by omega)
      subst h0
      simp [batches_nil]
  | succ m ih =>
      intro l hl
      rcases eq_or_ne l [] with rfl | hne
      · simp [batches_nil]
      · rw [batches_cons l B hB hne, List.flatten_cons, ih (l.drop B) ?_,
          List.take_append_drop]
        rw [List.length_drop]
        have h1 : 1 ≤ l.length := List.length_pos.mpr hne
        omega

theorem batches_flatten (l : List α) (B : Nat) (hB : 0 < B) :
    (batches l B).flatten = l :=
  batches_flatten_aux B hB l.length l (Nat.le_refl _)

theorem batches_get (l : List α) (B i : Nat) (h : i < (batches l B).length) :
    (batches l B).get ⟨i, h⟩ = (l.drop (i * B)).take B := by
  have h2 : i < ((l.length + B - 1) / B) := by
    rw [batches_length] at h
    exact h
  simp [batches, List.get_eq_getElem]

theorem batchStart_lt (N B i : Nat) (hB : 0 < B) (hi : i < (N + B - 1) / B) :
    i * B < N := by
  have h1 : (i + 1) * B ≤ N + B - 1 := (Nat.le_div_iff_mul_le hB).mp hi
  rw [Nat.succ_mul] at h1
  generalize i * B = m at h1 ⊢
  omega

theorem batchMiddle_full (N B i : Nat) (hB : 0 < B) (hi : i + 1 < (N + B - 1) / B) :
    i * B + B ≤ N := by
  have h1 : (i + 2) * B ≤ N + B - 1 := (Nat.le_div_iff_mul_le hB).mp hi
  have h2 : (i + 2) * B = i * B + 2 * B := by ring
  rw [h2] at h1
  generalize i * B = m at h1 ⊢
  omega

theorem filter_isMarker_map_item (b : List α) :
    (b.map BatchEvent.item).filter isMarker = [] := by
  induction b with
  | nil => rfl
  | cons x xs ih => simp [isMarker, ih]

theorem markers_enumFrom (bs : List (List α)) :
    ∀ s, (((bs.enumFrom s).map (fun p => process_batch p.1 p.2)).flatten).filter isMarker
      = seqMarkersFrom α s bs.length := by
  induction bs with
  | nil => intro s; rfl
  | cons b rest ih =>
      intro s
      simp only [List.enumFrom_cons, List.map_cons, List.flatten_cons,
        List.filter_append, List.length_cons, seqMarkersFrom]
      rw [ih (s + 1)]
      simp [process_batch, isMarker, filter_isMarker_map_item, List.filter_append]

/-- C8: for an input list of length `N` and a positive batch size `B`, the
scheduler forms exactly `ceil(N/B)` batches whose concatenation, in
order, is the input list; every batch except possibly the last has
exactly `B` elements, and every batch is nonempty with at most `B`
elements; and in the scheduler's event trace batch `i+1` starts only
after batch `i` has completed (the start/end markers alternate in strict
index order). -/
theorem batch_scheduler_shape (l : List α) (B : Nat) (hB : 0 < B) :
    (batches l B).length = (l.length + B - 1) / B
    ∧ (batches l B).flatten = l
    ∧ (∀ i (h : i < (batches l B).length), i + 1 < (batches l B).length →
        ((batches l B).get ⟨i, h⟩).length = B)
    ∧ (∀ i (h : i < (batches l B).length),
        0 < ((batches l B).get ⟨i, h⟩).length
        ∧ ((batches l B).get ⟨i, h⟩).length ≤ B)
    ∧ (process_all_batches l B).filter isMarker
        = seqMarkersFrom α 0 (batches l B).length := by
  refine ⟨batches_length l B, batches_flatten l B hB, ?_, ?_, ?_⟩
  · intro i h hmid
    rw [batches_length] at hmid
    rw [batches_get l B i h]
    have hfull := batchMiddle_full l.length B i hB hmid
    rw [List.length_take, List.length_drop]
    generalize hm : i * B = m at hfull ⊢
    omega
  · intro i h
    have hi : i < (l.length + B - 1) / B := by
      rw [batches_length] at h
      exact h
    have hlt := batchStart_lt l.length B i hB hi
    rw [batches_get l B i h, List.length_take, List.length_drop]
    generalize hm : i * B = m at hlt ⊢
    constructor
    · omega
    · omega
  · show ((((batches l B).enum).map
        (fun p => process_batch p.1 p.2)).flatten).filter isMarker = _
    have he : (batches l B).enum = (batches l B).enumFrom 0 := rfl
    rw [he, markers_enumFrom (batches l B) 0]

-- Witness for C8 on the spec's example: 120 inputs with batch size 50
-- give three batches of sizes 50, 50, 20.
theorem batch_scheduler_shape_witness :
    ((0 : Nat) < 50
      ∧ (batches (List.range 120) 50).map List.length = [50, 50, 20])
    ∧ ((batches (List.range 120) 50).length = ((List.range 120).length + 50 - 1) / 50
      ∧ (batches (List.range 120) 50).flatten = List.range 120
      ∧ (∀ i (h : i < (batches (List.range 120) 50).length),
          i + 1 < (batches (List.range 120) 50).length →
          ((batches (List.range 120) 50).get ⟨i, h⟩).length = 50)
      ∧ (∀ i (h : i < (batches (List.range 120) 50).length),
          0 < ((batches (List.range 120) 50).get ⟨i, h⟩).length
          ∧ ((batches (List.range 120) 50).get ⟨i, h⟩).length ≤ 50)
      ∧ (process_all_batches (List.range 120) 50).filter isMarker
          = seqMarkersFrom Nat 0 (batches (List.range 120) 50).length) :=
  ⟨⟨by decide, by decide⟩, batch_scheduler_shape (List.range 120) 50 (by decide)⟩

end EmblemScraper
